import Mathlib

/-!
Verification development for the CFTeam Session/Task Coordination Engine.

The definitions below are a shallow embedding of the coordination services
in `src/services/task_coordinator.py` and `src/services/session_manager.py`,
together with the cache and distributed-lock primitives of
`src/config/redis_config.py`.

Record schema: the service layer addresses columns and enum members
(`Session.identifier`, `Task.assigned_agent_id`, `SessionStatus.PLANNING`,
`TaskStatus.ASSIGNED`, `AgentStatus.WORKING`, ...) that are declared in the
schema of `scripts/run_migrations_direct.py`; the embedding follows that
schema, which is the one the services are executable against.  Enum member
order for `TaskPriority` follows the declaration in `src/models/task.py`
(low, medium, high, urgent, critical); a PostgreSQL native enum column
compares in declaration order, which is what `ORDER BY priority DESC` uses.

Python `float` metric fields are modelled by exact rationals; wall-clock
timestamps by natural numbers (seconds).  Pub/sub event publication is
fire-and-forget observability and is not modelled.  Python truthiness tests
on optional integers (`if not assigned_agent_id`) are modelled by
`truthyNat?` (both `None` and `0` are falsy).
-/

inductive TaskStatus
  | pending
  | assigned
  | in_progress
  | reviewing
  | completed
  | failed
  | cancelled
  | blocked
deriving DecidableEq, Repr

inductive TaskPriority
  | low
  | medium
  | high
  | urgent
  | critical
deriving DecidableEq, Repr

inductive SessionStatus
  | planning
  | active
  | paused
  | completed
  | failed
  | archived
deriving DecidableEq, Repr

inductive SessionPriority
  | low
  | medium
  | high
  | urgent
  | critical
deriving DecidableEq, Repr

inductive AgentStatus
  | idle
  | working
  | paused
  | error
  | maintenance
deriving DecidableEq, Repr

/-- Values held in a session `meta_data` JSON map. -/
inductive MetaVal
  | s : String → MetaVal
  | l : List String → MetaVal
  | n : Nat → MetaVal
deriving DecidableEq, Repr

/-- Row of the `tasks` table (schema of `scripts/run_migrations_direct.py`). -/
structure TaskRec where
  id : Nat
  identifier : String
  title : String
  description : String
  status : TaskStatus
  priority : TaskPriority
  session_id : Nat
  assigned_agent_id : Option Nat
  project_id : Option Nat
  dependencies : List String
  output : Option (List (String × String))
  error_message : Option String
  estimated_duration : Option Int
  actual_duration : Option Int
  retry_count : Nat
  created_at : Nat
  updated_at : Nat
  started_at : Option Nat
  completed_at : Option Nat
deriving DecidableEq, Repr

/-- Row of the `agents` table (the fields the coordinator touches). -/
structure AgentRec where
  id : Nat
  identifier : String
  name : String
  status : AgentStatus
  tasks_completed : Nat
  tasks_failed : Nat
  average_task_duration : Option ℚ
  success_rate : Option ℚ
  last_error : Option String
  last_active_at : Option Nat
deriving DecidableEq, Repr

/-- Row of the `sessions` table. -/
structure SessionRec where
  id : Nat
  identifier : String
  name : String
  description : String
  status : SessionStatus
  priority : SessionPriority
  meta_data : List (String × MetaVal)
  created_at : Nat
  updated_at : Nat
  started_at : Option Nat
  completed_at : Option Nat
deriving DecidableEq, Repr

/-- Projection of a task cached by `create_task`. -/
structure TaskCacheVal where
  id : Nat
  title : String
  status : TaskStatus
  priority : TaskPriority
  assigned_agent_id : Option Nat
deriving DecidableEq, Repr

/-- Projection of a session cached by `create_session`. -/
structure SessionCacheVal where
  id : Nat
  name : String
  status : SessionStatus
  priority : SessionPriority
deriving DecidableEq, Repr

/-- Result of `get_session_progress`. -/
structure ProgressRec where
  session_id : String
  status : SessionStatus
  total_tasks : Nat
  completed_tasks : Nat
  failed_tasks : Nat
  in_progress_tasks : Nat
  completion_percentage : ℚ
  started_at : Option Nat
  duration_minutes : ℚ
deriving DecidableEq, Repr

/-- A value stored in the Redis cache. -/
inductive CacheVal
  | taskVal : TaskCacheVal → CacheVal
  | sessionVal : SessionCacheVal → CacheVal
  | progressVal : ProgressRec → CacheVal
deriving DecidableEq, Repr

/-- The cache key space: an association list, newest binding first. -/
abbrev Cache := List (String × CacheVal)

/-- RedisCache.get — lookup by full key. -/
def cacheGet (c : Cache) (k : String) : Option CacheVal :=
  (c.find? (fun e => e.1 == k)).map (fun e => e.2)

/-- RedisCache.set — overwrite the binding for `k` (the ttl only bounds the
entry lifetime and has no other semantic effect; it is kept as an argument
for fidelity with the call sites). -/
def cacheSet (c : Cache) (k : String) (v : CacheVal) (_ttl : Option Nat) : Cache :=
  (k, v) :: c.filter (fun e => !(e.1 == k))

/-- RedisCache.delete — remove the binding for `k`. -/
def cacheDelete (c : Cache) (k : String) : Cache :=
  c.filter (fun e => !(e.1 == k))

/-- The distributed-lock key space: key to owner token. -/
abbrev LockStore := List (String × String)

def lockGet (s : LockStore) (k : String) : Option String :=
  (s.find? (fun e => e.1 == k)).map (fun e => e.2)

/-- RedisLock.acquire — `SET key token NX EX timeout`: store the fresh token
only if the key is absent (expiry is time-driven and outside the model). -/
def lockAcquire (s : LockStore) (k : String) (token : String) : Bool × LockStore :=
  if lockGet s k = none then (true, (k, token) :: s) else (false, s)

/-- RedisLock.release — the Lua compare-and-delete: delete only if the stored
token equals the caller's token. -/
def lockRelease (s : LockStore) (k : String) (token : String) : Bool × LockStore :=
  if lockGet s k = some token then (true, s.filter (fun e => !(e.1 == k)))
  else (false, s)

/-- RedisLock.extend — renew the expiry only if the token still matches
(expiry itself is not modelled, so the store is unchanged either way). -/
def lockExtend (s : LockStore) (k : String) (token : String) : Bool × LockStore :=
  if lockGet s k = some token then (true, s) else (false, s)

/-- Python truthiness of an optional integer: `None` and `0` are falsy. -/
def truthyNat? (x : Option Nat) : Bool :=
  match x with
  | none => false
  | some n => n != 0

/-- Python truthiness of an optional string: `None` and the empty string are
falsy. -/
def truthyStr? (x : Option String) : Bool :=
  match x with
  | none => false
  | some s => !(s == "")

/-- Whole coordination state: the durable store (tasks, agents, sessions),
the Redis cache and the coordinator's in-memory ready queue. -/
structure Coord where
  tasks : List TaskRec
  agents : List AgentRec
  sessions : List SessionRec
  cache : Cache
  queue : List Nat
deriving DecidableEq, Repr

/-- SELECT on tasks by `identifier` (first match, identifiers are unique by
constraint). -/
def find_task (st : Coord) (ident : String) : Option TaskRec :=
  st.tasks.find? (fun t => t.identifier == ident)

/-- SELECT on sessions by `identifier`. -/
def find_session (st : Coord) (ident : String) : Option SessionRec :=
  st.sessions.find? (fun s => s.identifier == ident)

/-- SELECT on agents by `identifier`. -/
def find_agent (st : Coord) (ident : String) : Option AgentRec :=
  st.agents.find? (fun a => a.identifier == ident)

/-- TaskCoordinator.get_task: the cache is consulted only to emit a debug
log (its value is never returned); the call always returns the durable
store row. -/
def get_task (st : Coord) (ident : String) : Option TaskRec :=
  let _cached := cacheGet st.cache ("task:" ++ ident)
  find_task st ident

/-- SessionManager.get_session: same pattern as `get_task` — the cached
value is only logged, the store row is returned. -/
def get_session (st : Coord) (ident : String) : Option SessionRec :=
  let _cached := cacheGet st.cache ("session:" ++ ident)
  find_session st ident

/-- TaskCoordinator.create_task.  The row is inserted with no explicit
status, so the column default `TaskStatus.PENDING` applies regardless of
`dependencies`; the task is cached and, when unassigned, appended to the
in-memory queue.  `ident` stands for the generated `task_{uuid}` string and
`now` for `datetime.utcnow()`. -/
def create_task (st : Coord) (now : Nat) (ident : String) (session_id : Nat)
    (title : String) (description : String) (project_id : Option Nat)
    (priority : TaskPriority) (dependencies : Option (List String))
    (estimated_duration : Option Int) (assigned_agent_id : Option Nat) :
    TaskRec × Coord :=
  let new_task : TaskRec :=
    { id := st.tasks.length + 1
      identifier := ident
      title := title
      description := description
      status := TaskStatus.pending
      priority := priority
      session_id := session_id
      assigned_agent_id := assigned_agent_id
      project_id := project_id
      dependencies := dependencies.getD []
      output := none
      error_message := none
      estimated_duration := estimated_duration
      actual_duration := none
      retry_count := 0
      created_at := now
      updated_at := now
      started_at := none
      completed_at := none }
  let cache' := cacheSet st.cache ("task:" ++ ident)
    (CacheVal.taskVal
      { id := new_task.id, title := title, status := new_task.status,
        priority := priority, assigned_agent_id := assigned_agent_id })
    (some 3600)
  let queue' :=
    if truthyNat? assigned_agent_id then st.queue else st.queue ++ [new_task.id]
  (new_task,
    { st with tasks := st.tasks ++ [new_task], cache := cache', queue := queue' })

/-- Row predicate of the conditional UPDATE in assign_task:
`identifier = ? AND status = PENDING`. -/
def assignPred (task_identifier : String) (t : TaskRec) : Bool :=
  t.identifier == task_identifier && t.status == TaskStatus.pending

/-- The SET clause of the conditional UPDATE in assign_task. -/
def assignRowUpdate (now : Nat) (agent_id : Nat) (t : TaskRec) : TaskRec :=
  { t with assigned_agent_id := some agent_id,
           status := TaskStatus.assigned, updated_at := now }

/-- The agent-side update of assign_task: WORKING plus a fresh
`last_active_at`. -/
def assignAgentUpdate (now : Nat) (a : AgentRec) : AgentRec :=
  { a with status := AgentStatus.working, last_active_at := some now }

/-- TaskCoordinator.assign_task: resolve the agent, then a conditional
update gated only on `status = PENDING`; if a row matched, flip the agent
to WORKING, drop the cache entry, remove the task from the in-memory
queue and report success, otherwise report failure with no change. -/
def assign_task (st : Coord) (now : Nat) (task_identifier : String)
    (agent_identifier : String) : Bool × Coord :=
  match find_agent st agent_identifier with
  | none => (false, st)
  | some agent =>
    if st.tasks.any (assignPred task_identifier) then
      let tasks' := st.tasks.map (fun t =>
        if assignPred task_identifier t then assignRowUpdate now agent.id t else t)
      let agents' := st.agents.map (fun a =>
        if a.id == agent.id then assignAgentUpdate now a else a)
      let cache' := cacheDelete st.cache ("task:" ++ task_identifier)
      let st1 : Coord :=
        { st with tasks := tasks', agents := agents', cache := cache' }
      let queue' :=
        match get_task st1 task_identifier with
        | some t => if st1.queue.contains t.id then st1.queue.erase t.id else st1.queue
        | none => st1.queue
      (true, { st1 with queue := queue' })
    else (false, st)

/-- Row predicate of the conditional UPDATE in start_task:
`identifier = ? AND status IN (ASSIGNED, PENDING)`. -/
def startPred (ident : String) (t : TaskRec) : Bool :=
  t.identifier == ident &&
    (t.status == TaskStatus.assigned || t.status == TaskStatus.pending)

/-- The SET clause of the conditional UPDATE in start_task. -/
def startRowUpdate (now : Nat) (t : TaskRec) : TaskRec :=
  { t with status := TaskStatus.in_progress, started_at := some now }

/-- TaskCoordinator.start_task: conditional update ASSIGNED|PENDING →
IN_PROGRESS recording `started_at`; no dependency check of any kind. -/
def start_task (st : Coord) (now : Nat) (ident : String) : Bool × Coord :=
  if st.tasks.any (startPred ident) then
    (true,
      { st with
        tasks := st.tasks.map (fun t =>
          if startPred ident t then startRowUpdate now t else t)
        cache := cacheDelete st.cache ("task:" ++ ident) })
  else (false, st)

/-- One iteration of the dependency-resolver scan on a single row: a
BLOCKED task whose dependency list contains the completed identifier loses
that entry, and moves to PENDING when the list becomes empty. -/
def unblockRow (completed_task_identifier : String) (t : TaskRec) : TaskRec :=
  if t.status == TaskStatus.blocked &&
      t.dependencies.contains completed_task_identifier then
    let deps' := t.dependencies.erase completed_task_identifier
    if deps'.isEmpty then
      { t with dependencies := deps', status := TaskStatus.pending }
    else { t with dependencies := deps' }
  else t

/-- TaskCoordinator._check_and_unblock_dependencies: scan BLOCKED tasks
whose dependency list contains the completed identifier, remove it, and
when the list becomes empty move the task to PENDING (queueing it when
unassigned). -/
def check_and_unblock_dependencies (st : Coord)
    (completed_task_identifier : String) : Coord :=
  let unblocked := fun (t : TaskRec) =>
    t.status == TaskStatus.blocked &&
      t.dependencies.contains completed_task_identifier &&
      (t.dependencies.erase completed_task_identifier).isEmpty
  let newly_ready :=
    st.tasks.filter (fun t => unblocked t && !(truthyNat? t.assigned_agent_id))
  { st with tasks := st.tasks.map (unblockRow completed_task_identifier),
            queue := st.queue ++ newly_ready.map (fun t => t.id) }

/-- Row predicate of the conditional UPDATE in complete_task:
`identifier = ? AND status = IN_PROGRESS`. -/
def completePred (ident : String) (t : TaskRec) : Bool :=
  t.identifier == ident && t.status == TaskStatus.in_progress

/-- The SET clause of the conditional UPDATE in complete_task. -/
def completeRowUpdate (now : Nat) (actual_duration : Option Int)
    (output : Option (List (String × String))) (t : TaskRec) : TaskRec :=
  { t with status := TaskStatus.completed, completed_at := some now,
           actual_duration := actual_duration,
           output := some (output.getD []) }

/-- Elapsed whole minutes between `started_at` and now (Python truncates the
float quotient toward zero, which coincides with integer division here). -/
def durationMinutes (now : Nat) (t : TaskRec) : Option Int :=
  match t.started_at with
  | some s => some (((now : Int) - (s : Int)) / 60)
  | none => none

/-- Agent metric update performed by complete_task: one more completion,
back to IDLE, `success_rate = completed / (completed + failed) * 100`, and
the streaming-mean update of `average_task_duration` under Python
truthiness (`if actual_duration and agent.average_task_duration`). -/
def completeAgentUpdate (a : AgentRec) (actual_duration : Option Int) : AgentRec :=
  let completed' := a.tasks_completed + 1
  let total : Nat := completed' + a.tasks_failed
  let rate : ℚ := ((completed' : ℚ) / (total : ℚ)) * 100
  let durTruthy :=
    match actual_duration with
    | some d => d != 0
    | none => false
  let avgTruthy :=
    match a.average_task_duration with
    | some q => !(q == 0)
    | none => false
  let avg' : Option ℚ :=
    if durTruthy && avgTruthy then
      some ((a.average_task_duration.getD 0 * ((completed' : ℚ) - 1)
              + ((actual_duration.getD 0 : ℤ) : ℚ)) / (completed' : ℚ))
    else if durTruthy then some ((actual_duration.getD 0 : ℤ) : ℚ)
    else a.average_task_duration
  { a with tasks_completed := completed', status := AgentStatus.idle,
           success_rate := some rate, average_task_duration := avg' }

/-- TaskCoordinator.complete_task: re-read the task, compute the elapsed
minutes, then a conditional update IN_PROGRESS → COMPLETED; on a matched
row update the assigned agent's metrics (a dangling agent reference makes
`scalar_one` raise after the task update is already committed, so the call
returns failure with the task transitioned but nothing else done), then
invalidate the cache and fan out to blocked dependents. -/
def complete_task (st : Coord) (now : Nat) (ident : String)
    (output : Option (List (String × String))) : Bool × Coord :=
  match get_task st ident with
  | none => (false, st)
  | some task =>
    let actual_duration : Option Int := durationMinutes now task
    if st.tasks.any (completePred ident) then
      let tasks' := st.tasks.map (fun t =>
        if completePred ident t then completeRowUpdate now actual_duration output t
        else t)
      let st1 : Coord := { st with tasks := tasks' }
      if truthyNat? task.assigned_agent_id then
        match st.agents.find? (fun a => a.id == task.assigned_agent_id.getD 0) with
        | none => (false, st1)
        | some agent =>
          let st2 : Coord :=
            { st1 with
              agents := st1.agents.map (fun a =>
                if a.id == agent.id then completeAgentUpdate a actual_duration
                else a) }
          let st3 : Coord :=
            { st2 with cache := cacheDelete st2.cache ("task:" ++ ident) }
          (true, check_and_unblock_dependencies st3 ident)
      else
        let st3 : Coord :=
          { st1 with cache := cacheDelete st1.cache ("task:" ++ ident) }
        (true, check_and_unblock_dependencies st3 ident)
    else (false, st)

/-- Row predicate of the conditional UPDATE in fail_task:
`identifier = ? AND status != COMPLETED` — the only protected state is
COMPLETED. -/
def failPred (ident : String) (t : TaskRec) : Bool :=
  t.identifier == ident && !(t.status == TaskStatus.completed)

/-- The SET clause of the conditional UPDATE in fail_task. -/
def failRowUpdate (now : Nat) (error_message : String) (t : TaskRec) : TaskRec :=
  { t with status := TaskStatus.failed,
           error_message := some error_message, updated_at := now }

/-- Agent metric update performed by fail_task. -/
def failAgentUpdate (a : AgentRec) (error_message : String) : AgentRec :=
  let failed' := a.tasks_failed + 1
  let total : Nat := a.tasks_completed + failed'
  let rate : ℚ := ((a.tasks_completed : ℚ) / (total : ℚ)) * 100
  { a with tasks_failed := failed', status := AgentStatus.idle,
           last_error := some error_message, success_rate := some rate }

/-- TaskCoordinator.fail_task: conditional update `status != COMPLETED` →
FAILED recording `error_message`; on a matched row update the assigned
agent's failure metrics (same dangling-reference caveat as complete_task),
then invalidate the cache. -/
def fail_task (st : Coord) (now : Nat) (ident : String)
    (error_message : String) : Bool × Coord :=
  match get_task st ident with
  | none => (false, st)
  | some task =>
    if st.tasks.any (failPred ident) then
      let tasks' := st.tasks.map (fun t =>
        if failPred ident t then failRowUpdate now error_message t else t)
      let st1 : Coord := { st with tasks := tasks' }
      if truthyNat? task.assigned_agent_id then
        match st.agents.find? (fun a => a.id == task.assigned_agent_id.getD 0) with
        | none => (false, st1)
        | some agent =>
          let st2 : Coord :=
            { st1 with
              agents := st1.agents.map (fun a =>
                if a.id == agent.id then failAgentUpdate a error_message else a) }
          (true, { st2 with cache := cacheDelete st2.cache ("task:" ++ ident) })
      else
        (true, { st1 with cache := cacheDelete st1.cache ("task:" ++ ident) })
    else (false, st)

/-- TaskCoordinator.retry_task: only a FAILED task is retried; the update
is keyed on the identifier alone, setting PENDING, incrementing the re-read
`retry_count` and clearing `error_message`; an unassigned task goes back on
the queue and the cache entry is dropped. -/
def retry_task (st : Coord) (now : Nat) (ident : String) : Bool × Coord :=
  match get_task st ident with
  | none => (false, st)
  | some task =>
    if !(task.status == TaskStatus.failed) then (false, st)
    else
      if st.tasks.any (fun t => t.identifier == ident) then
        let tasks' := st.tasks.map (fun t =>
          if t.identifier == ident then
            { t with status := TaskStatus.pending,
                     retry_count := task.retry_count + 1,
                     error_message := none, updated_at := now }
          else t)
        let queue' :=
          if truthyNat? task.assigned_agent_id then st.queue
          else st.queue ++ [task.id]
        (true,
          { st with tasks := tasks', queue := queue',
                    cache := cacheDelete st.cache ("task:" ++ ident) })
      else (false, st)

/-- Declaration-order ordinal of `TaskPriority` (`src/models/task.py`),
which is the comparison order of the PostgreSQL native enum column. -/
def priorityOrd : TaskPriority → Nat
  | TaskPriority.low => 0
  | TaskPriority.medium => 1
  | TaskPriority.high => 2
  | TaskPriority.urgent => 3
  | TaskPriority.critical => 4

/-- The `ORDER BY Task.priority DESC, Task.created_at` comparison used by
`list_tasks` and `get_next_task_for_agent`. -/
def taskOrder (a b : TaskRec) : Prop :=
  priorityOrd b.priority < priorityOrd a.priority ∨
    (priorityOrd a.priority = priorityOrd b.priority ∧ a.created_at ≤ b.created_at)

instance : DecidableRel taskOrder := fun a b => by
  unfold taskOrder; infer_instance

/-- Sorting a result set the way the `ORDER BY` clause does. -/
def orderTasks (ts : List TaskRec) : List TaskRec :=
  List.insertionSort taskOrder ts

/-- TaskCoordinator.list_tasks: optional filters (with Python truthiness on
the integer-valued ones), then `ORDER BY priority DESC, created_at`. -/
def list_tasks (st : Coord) (session_id : Option Nat) (status : Option TaskStatus)
    (priority : Option TaskPriority) (assigned_agent_id : Option Nat)
    (unassigned_only : Bool) : List TaskRec :=
  let q := st.tasks
  let q := if truthyNat? session_id then
      q.filter (fun t => t.session_id == session_id.getD 0) else q
  let q := match status with
    | some s => q.filter (fun t => t.status == s)
    | none => q
  let q := match priority with
    | some p => q.filter (fun t => t.priority == p)
    | none => q
  let q := if truthyNat? assigned_agent_id then
      q.filter (fun t => t.assigned_agent_id == some (assigned_agent_id.getD 0)) else q
  let q := if unassigned_only then q.filter (fun t => t.assigned_agent_id == none) else q
  orderTasks q

/-- Candidate filter of get_next_task_for_agent: unassigned, PENDING, and an
empty dependency list. -/
def nextCandidate (t : TaskRec) : Bool :=
  t.assigned_agent_id == none && t.status == TaskStatus.pending &&
    t.dependencies == ([] : List String)

/-- TaskCoordinator.get_next_task_for_agent: resolve the agent, select the
candidates ordered by the same `ORDER BY` clause and return the first one
(capability matching is a TODO in the source: the loop returns the first
task unconditionally). -/
def get_next_task_for_agent (st : Coord) (agent_identifier : String) :
    Option TaskRec :=
  match find_agent st agent_identifier with
  | none => none
  | some _ => (orderTasks (st.tasks.filter nextCandidate)).head?

/-- Insert or replace a key in a session `meta_data` map. -/
def metaSet (m : List (String × MetaVal)) (k : String) (v : MetaVal) :
    List (String × MetaVal) :=
  (k, v) :: m.filter (fun e => !(e.1 == k))

/-- SessionManager.create_session: the row is inserted with no explicit
status, so the column default `SessionStatus.PLANNING` applies; `projects`
is folded into the metadata map when truthy, and the session is cached. -/
def create_session (st : Coord) (now : Nat) (ident : String) (name : String)
    (description : String) (priority : SessionPriority)
    (projects : Option (List String))
    (metadata : Option (List (String × MetaVal))) : SessionRec × Coord :=
  let md0 := metadata.getD []
  let md :=
    match projects with
    | some ps => if ps.isEmpty then md0 else metaSet md0 "projects" (MetaVal.l ps)
    | none => md0
  let new_session : SessionRec :=
    { id := st.sessions.length + 1
      identifier := ident
      name := name
      description := description
      status := SessionStatus.planning
      priority := priority
      meta_data := md
      created_at := now
      updated_at := now
      started_at := none
      completed_at := none }
  let cache' := cacheSet st.cache ("session:" ++ ident)
    (CacheVal.sessionVal
      { id := new_session.id, name := name, status := new_session.status,
        priority := priority })
    (some 3600)
  (new_session, { st with sessions := st.sessions ++ [new_session], cache := cache' })

/-- Row predicate of the conditional UPDATE in start_session:
`identifier = ? AND status = PLANNING`. -/
def sessionStartPred (ident : String) (s : SessionRec) : Bool :=
  s.identifier == ident && s.status == SessionStatus.planning

/-- The SET clause of the conditional UPDATE in start_session. -/
def sessionStartRowUpdate (now : Nat) (s : SessionRec) : SessionRec :=
  { s with status := SessionStatus.active, started_at := some now }

/-- SessionManager.start_session: conditional update PLANNING → ACTIVE
recording `started_at`, then cache invalidation; no matching row means
failure with no change. -/
def start_session (st : Coord) (now : Nat) (ident : String) : Bool × Coord :=
  if st.sessions.any (sessionStartPred ident) then
    (true,
      { st with
        sessions := st.sessions.map (fun s =>
          if sessionStartPred ident s then sessionStartRowUpdate now s else s)
        cache := cacheDelete st.cache ("session:" ++ ident) })
  else (false, st)

/-- SessionManager.pause_session: conditional update ACTIVE → PAUSED, an
optional metadata note of the pause reason, then cache invalidation. -/
def pause_session (st : Coord) (now : Nat) (ident : String)
    (reason : Option String) : Bool × Coord :=
  let pred := fun (s : SessionRec) =>
    s.identifier == ident && s.status == SessionStatus.active
  if st.sessions.any pred then
    let sessions' := st.sessions.map (fun s =>
      if pred s then { s with status := SessionStatus.paused, updated_at := now }
      else s)
    let sessions'' :=
      if truthyStr? reason then
        sessions'.map (fun s =>
          if s.identifier == ident then
            let md := metaSet
              (metaSet s.meta_data "pause_reason" (MetaVal.s (reason.getD "")))
              "paused_at" (MetaVal.n now)
            { s with meta_data := md }
          else s)
      else sessions'
    (true,
      { st with sessions := sessions'',
                cache := cacheDelete st.cache ("session:" ++ ident) })
  else (false, st)

/-- SessionManager.complete_session: the incomplete-task census is only a
warning log; the conditional update requires ACTIVE or PAUSED, records
`completed_at`, optionally notes the summary, then invalidates the cache. -/
def complete_session (st : Coord) (now : Nat) (ident : String)
    (summary : Option String) : Bool × Coord :=
  match get_session st ident with
  | none => (false, st)
  | some _ =>
    let pred := fun (s : SessionRec) =>
      s.identifier == ident &&
        (s.status == SessionStatus.active || s.status == SessionStatus.paused)
    if st.sessions.any pred then
      let sessions' := st.sessions.map (fun s =>
        if pred s then
          { s with status := SessionStatus.completed, completed_at := some now }
        else s)
      let sessions'' :=
        if truthyStr? summary then
          sessions'.map (fun s =>
            if s.identifier == ident then
              let md := metaSet s.meta_data "completion_summary"
                (MetaVal.s (summary.getD ""))
              { s with meta_data := md }
            else s)
        else sessions'
      (true,
        { st with sessions := sessions'',
                  cache := cacheDelete st.cache ("session:" ++ ident) })
    else (false, st)

/-- SessionManager.fail_session: conditional update `status != COMPLETED` →
FAILED, metadata notes of the failure, then cache invalidation. -/
def fail_session (st : Coord) (now : Nat) (ident : String) (error : String) :
    Bool × Coord :=
  let pred := fun (s : SessionRec) =>
    s.identifier == ident && !(s.status == SessionStatus.completed)
  if st.sessions.any pred then
    let sessions' := st.sessions.map (fun s =>
      if pred s then { s with status := SessionStatus.failed, updated_at := now }
      else s)
    let sessions'' := sessions'.map (fun s =>
      if s.identifier == ident then
        let md := metaSet
          (metaSet s.meta_data "failure_reason" (MetaVal.s error))
          "failed_at" (MetaVal.n now)
        { s with meta_data := md }
      else s)
    (true,
      { st with sessions := sessions'',
                cache := cacheDelete st.cache ("session:" ++ ident) })
  else (false, st)

/-- SessionManager.archive_session: conditional update COMPLETED|FAILED →
ARCHIVED, then invalidation of both the session and the progress cache
entries. -/
def archive_session (st : Coord) (now : Nat) (ident : String) : Bool × Coord :=
  let pred := fun (s : SessionRec) =>
    s.identifier == ident &&
      (s.status == SessionStatus.completed || s.status == SessionStatus.failed)
  if st.sessions.any pred then
    (true,
      { st with
        sessions := st.sessions.map (fun s =>
          if pred s then { s with status := SessionStatus.archived, updated_at := now }
          else s)
        cache := cacheDelete (cacheDelete st.cache ("session:" ++ ident))
          ("session_progress:" ++ ident) })
  else (false, st)

/-- The tasks owned by a session (`selectinload(Session.tasks)`). -/
def session_tasks (st : Coord) (sess : SessionRec) : List TaskRec :=
  st.tasks.filter (fun t => t.session_id == sess.id)

/-- SessionManager.get_session_progress: task censuses plus a completion
percentage whose division is guarded by `total_tasks > 0`; the result is
also cached for a minute.  A missing session yields the empty dict,
modelled as `none`. -/
def get_session_progress (st : Coord) (now : Nat) (ident : String) :
    Option ProgressRec × Coord :=
  match get_session st ident with
  | none => (none, st)
  | some sess =>
    let tasks := session_tasks st sess
    let total_tasks := tasks.length
    let completed_tasks :=
      (tasks.filter (fun t => t.status == TaskStatus.completed)).length
    let failed_tasks :=
      (tasks.filter (fun t => t.status == TaskStatus.failed)).length
    let in_progress_tasks :=
      (tasks.filter (fun t => t.status == TaskStatus.in_progress)).length
    let progress : ProgressRec :=
      { session_id := sess.identifier
        status := sess.status
        total_tasks := total_tasks
        completed_tasks := completed_tasks
        failed_tasks := failed_tasks
        in_progress_tasks := in_progress_tasks
        completion_percentage :=
          if total_tasks > 0 then
            (completed_tasks : ℚ) / (total_tasks : ℚ) * 100
          else 0
        started_at := sess.started_at
        duration_minutes :=
          match sess.started_at with
          | some s => ((now - s : Nat) : ℚ) / 60
          | none => 0 }
    let cache' := cacheSet st.cache ("session_progress:" ++ ident)
      (CacheVal.progressVal progress) (some 60)
    (some progress, { st with cache := cache' })

/-- The state-transition operations quantified over by the cache-consistency
discipline: the five task transitions and the five session transitions. -/
inductive CoordOp
  | assign (task_identifier agent_identifier : String)
  | start (ident : String)
  | complete (ident : String) (output : Option (List (String × String)))
  | fail (ident : String) (error_message : String)
  | retry (ident : String)
  | sessionStart (ident : String)
  | sessionPause (ident : String) (reason : Option String)
  | sessionComplete (ident : String) (summary : Option String)
  | sessionFail (ident : String) (error : String)
  | sessionArchive (ident : String)
deriving DecidableEq, Repr

/-- Dispatch a coordination operation. -/
def runOp (st : Coord) (now : Nat) : CoordOp → Bool × Coord
  | CoordOp.assign t a => assign_task st now t a
  | CoordOp.start i => start_task st now i
  | CoordOp.complete i o => complete_task st now i o
  | CoordOp.fail i e => fail_task st now i e
  | CoordOp.retry i => retry_task st now i
  | CoordOp.sessionStart i => start_session st now i
  | CoordOp.sessionPause i r => pause_session st now i r
  | CoordOp.sessionComplete i s => complete_session st now i s
  | CoordOp.sessionFail i e => fail_session st now i e
  | CoordOp.sessionArchive i => archive_session st now i

/-- The cache key invalidated by each operation. -/
def opKey : CoordOp → String
  | CoordOp.assign t _ => "task:" ++ t
  | CoordOp.start i => "task:" ++ i
  | CoordOp.complete i _ => "task:" ++ i
  | CoordOp.fail i _ => "task:" ++ i
  | CoordOp.retry i => "task:" ++ i
  | CoordOp.sessionStart i => "session:" ++ i
  | CoordOp.sessionPause i _ => "session:" ++ i
  | CoordOp.sessionComplete i _ => "session:" ++ i
  | CoordOp.sessionFail i _ => "session:" ++ i
  | CoordOp.sessionArchive i => "session:" ++ i

/-- An empty coordination state. -/
def emptyCoord : Coord :=
  { tasks := [], agents := [], sessions := [], cache := [], queue := [] }

/-- A baseline agent row for concrete scenarios. -/
def agentOne : AgentRec :=
  { id := 1, identifier := "agent_one", name := "Agent One",
    status := AgentStatus.idle, tasks_completed := 0, tasks_failed := 0,
    average_task_duration := none, success_rate := none,
    last_error := none, last_active_at := none }

/-- A second agent row for reassignment scenarios. -/
def agentTwo : AgentRec :=
  { agentOne with id := 2, identifier := "agent_two", name := "Agent Two" }

/-- A baseline task row for concrete scenarios. -/
def baseTask : TaskRec :=
  { id := 1, identifier := "task_t", title := "T", description := "",
    status := TaskStatus.pending, priority := TaskPriority.medium,
    session_id := 1, assigned_agent_id := none, project_id := none,
    dependencies := [], output := none, error_message := none,
    estimated_duration := none, actual_duration := none, retry_count := 0,
    created_at := 0, updated_at := 0, started_at := none, completed_at := none }

/-- A baseline session row for concrete scenarios. -/
def baseSession : SessionRec :=
  { id := 1, identifier := "sess_s", name := "S", description := "",
    status := SessionStatus.planning, priority := SessionPriority.medium,
    meta_data := [], created_at := 0, updated_at := 0,
    started_at := none, completed_at := none }

/-- State with just one session, used by concrete scenarios. -/
def sessionOnly : Coord := { emptyCoord with sessions := [baseSession] }

/-- The dependency scenario of the spec: task A without dependencies, then
task B depending on A, both created through create_task. -/
def depState : Coord :=
  (create_task
    (create_task sessionOnly 0 "task_a" 1 "A" "" none
      TaskPriority.medium none none none).2
    1 "task_b" 1 "B" "" none TaskPriority.medium (some ["task_a"])
    none none).2

/-- A PENDING task that already carries an assignment to agent 1, with two
agents registered. -/
def reassignState : Coord :=
  { emptyCoord with
    tasks := [{ baseTask with assigned_agent_id := some 1 }]
    agents := [agentOne, agentTwo] }

/-- An IN_PROGRESS task assigned to agent 1 and started at time 0. -/
def inProgressState : Coord :=
  { emptyCoord with
    tasks := [{ baseTask with
                status := TaskStatus.in_progress
                assigned_agent_id := some 1
                started_at := some 0 }]
    agents := [agentOne] }

/-- A CANCELLED task, i.e. one in a terminal state other than COMPLETED. -/
def cancelledState : Coord :=
  { emptyCoord with tasks := [{ baseTask with status := TaskStatus.cancelled }] }

/-- Low-priority candidate created late. -/
def taskLowLate : TaskRec :=
  { baseTask with
    id := 11
    identifier := "task_low"
    priority := TaskPriority.low
    created_at := 5 }

/-- Critical-priority candidate created later than `taskCritEarly`. -/
def taskCritLate : TaskRec :=
  { baseTask with
    id := 12
    identifier := "task_crit_late"
    priority := TaskPriority.critical
    created_at := 9 }

/-- Critical-priority candidate created first. -/
def taskCritEarly : TaskRec :=
  { baseTask with
    id := 13
    identifier := "task_crit_early"
    priority := TaskPriority.critical
    created_at := 2 }

/-- Three ready candidates and one agent, for ordering scenarios. -/
def orderingState : Coord :=
  { emptyCoord with
    tasks := [taskLowLate, taskCritLate, taskCritEarly]
    agents := [agentOne] }

instance : IsTotal TaskRec taskOrder := by
  constructor
  intro a b
  unfold taskOrder
  rcases Nat.lt_trichotomy (priorityOrd a.priority) (priorityOrd b.priority)
    with h | h | h
  · exact Or.inr (Or.inl h)
  · rcases Nat.le_total a.created_at b.created_at with hc | hc
    · exact Or.inl (Or.inr ⟨h, hc⟩)
    · exact Or.inr (Or.inr ⟨h.symm, hc⟩)
  · exact Or.inl (Or.inl h)

instance : IsTrans TaskRec taskOrder := by
  constructor
  intro a b c hab hbc
  unfold taskOrder at *
  rcases hab with h1 | ⟨h1, h1c⟩ <;> rcases hbc with h2 | ⟨h2, h2c⟩
  · exact Or.inl (Nat.lt_trans h2 h1)
  · exact Or.inl (h2 ▸ h1)
  · exact Or.inl (h1 ▸ h2)
  · exact Or.inr ⟨h1.trans h2, Nat.le_trans h1c h2c⟩

/-- Removing every binding of a key from an association list leaves nothing
for a lookup of that key to find. -/
theorem assoc_find_erased {β : Type} (l : List (String × β)) (k : String) :
    (l.filter (fun e => !(e.1 == k))).find? (fun e => e.1 == k) = none := by
  induction l with
  | nil => rfl
  | cons hd tl ih =>
    by_cases h : hd.1 = k <;>
      simp [List.filter_cons, h, List.find?_cons, ih]

/-- A lookup that already fails keeps failing on any filtered sublist. -/
theorem find?_filter_none {α : Type} (l : List α) (p q : α → Bool)
    (h : l.find? p = none) : (l.filter q).find? p = none := by
  rw [List.find?_eq_none] at h ⊢
  intro x hx
  exact h x (List.mem_of_mem_filter hx)

/-- Deleting a key from the cache empties its lookup. -/
theorem cacheGet_cacheDelete (c : Cache) (k : String) :
    cacheGet (cacheDelete c k) k = none := by
  simp [cacheGet, cacheDelete, assoc_find_erased]

/-- A key absent from the cache stays absent across further deletions. -/
theorem cacheGet_cacheDelete_of_none (c : Cache) (k k' : String)
    (h : cacheGet c k = none) : cacheGet (cacheDelete c k') k = none := by
  have h' : List.find? (fun e => e.1 == k) c = none := by
    unfold cacheGet at h
    cases hf : List.find? (fun e => e.1 == k) c with
    | none => rfl
    | some v => rw [hf] at h; simp at h
  unfold cacheGet cacheDelete
  rw [find?_filter_none _ _ _ h']
  rfl

/-- The dependency resolver only rewrites task rows. -/
theorem check_and_unblock_cache (st : Coord) (i : String) :
    (check_and_unblock_dependencies st i).cache = st.cache := rfl

/-- The dependency resolver leaves agent rows alone. -/
theorem check_and_unblock_agents (st : Coord) (i : String) :
    (check_and_unblock_dependencies st i).agents = st.agents := rfl

/-- The task rows after the dependency resolver are the pointwise
`unblockRow` image. -/
theorem check_and_unblock_tasks (st : Coord) (i : String) :
    (check_and_unblock_dependencies st i).tasks = st.tasks.map (unblockRow i) := rfl

/-- C1: the dependency-gating invariant fails on the code.  Task B is
created with the unmet dependency `task_a`, yet a single `start_task` call
(one of the coordination operations the claim quantifies over) succeeds and
moves B to IN_PROGRESS while `task_a` is still PENDING, because create_task
leaves B PENDING rather than BLOCKED and start_task performs no dependency
check. -/
theorem start_task_runs_with_unmet_dependencies :
    (find_task depState "task_b").map (fun t => (t.status, t.dependencies))
      = some (TaskStatus.pending, ["task_a"]) ∧
    (start_task depState 5 "task_b").1 = true ∧
    (find_task (start_task depState 5 "task_b").2 "task_b").map
      (fun t => t.status) = some TaskStatus.in_progress ∧
    (find_task (start_task depState 5 "task_b").2 "task_a").map
      (fun t => t.status) = some TaskStatus.pending := by
  refine ⟨rfl, rfl, rfl, rfl⟩

/-- C2: create_task never computes a BLOCKED initial status — the inserted
row carries the column default PENDING for every argument vector, so a task
whose dependencies list is non-empty still starts PENDING, contradicting
the claimed `Blocked` at creation. -/
theorem create_task_initial_status_always_pending :
    (∀ st now ident sid title desc pj prio deps ed aid,
      (create_task st now ident sid title desc pj prio deps ed aid).1.status
        = TaskStatus.pending) ∧
    (create_task sessionOnly 1 "task_b" 1 "B" "" none TaskPriority.medium
        (some ["task_a"]) none none).1.dependencies = ["task_a"] ∧
    (create_task sessionOnly 1 "task_b" 1 "B" "" none TaskPriority.medium
        (some ["task_a"]) none none).1.status ≠ TaskStatus.blocked := by
  refine ⟨fun _ _ _ _ _ _ _ _ _ _ _ => rfl, rfl, by decide⟩

/-- C3 counterexample: the task is PENDING but its assigned_agent is NOT
NULL (agent 1), and assign_task to agent_two still succeeds and overwrites
the assignment — the conditional update checks only the status, not
`assigned_agent IS NULL` as claimed. -/
theorem assign_task_overwrites_prior_assignment :
    (find_task reassignState "task_t").map
      (fun t => (t.status, t.assigned_agent_id))
      = some (TaskStatus.pending, some 1) ∧
    (assign_task reassignState 5 "task_t" "agent_two").1 = true ∧
    (find_task (assign_task reassignState 5 "task_t" "agent_two").2 "task_t").map
      (fun t => (t.status, t.assigned_agent_id))
      = some (TaskStatus.assigned, some 2) := by
  refine ⟨rfl, rfl, rfl⟩

/-- C3 amended: assign_task succeeds exactly when the agent resolves and
some row matches `status = PENDING` (the stored assignment is not
consulted); on success the matching rows get the agent and ASSIGNED and the
agent is flipped to WORKING; on failure the state is returned untouched
with no retry. -/
theorem assign_task_requires_only_pending
    (st : Coord) (now : Nat) (ti ai : String) :
    ((assign_task st now ti ai).1 = true ↔
      (find_agent st ai).isSome = true ∧
        st.tasks.any (assignPred ti) = true) ∧
    ((assign_task st now ti ai).1 = false → (assign_task st now ti ai).2 = st) ∧
    (∀ ag, find_agent st ai = some ag → st.tasks.any (assignPred ti) = true →
      (assign_task st now ti ai).2.tasks = st.tasks.map (fun t =>
        if assignPred ti t then assignRowUpdate now ag.id t else t) ∧
      (assign_task st now ti ai).2.agents = st.agents.map (fun a =>
        if a.id == ag.id then assignAgentUpdate now a else a)) := by
  cases hag : find_agent st ai with
  | none =>
    refine ⟨?_, ?_, ?_⟩
    · simp [assign_task, hag]
    · simp [assign_task, hag]
    · intro ag hag'
      exact absurd hag' (by simp)
  | some ag =>
    by_cases hany : st.tasks.any (assignPred ti) = true
    · refine ⟨?_, ?_, ?_⟩
      · simp [assign_task, hag, hany]
      · simp [assign_task, hag, hany]
      · intro ag' hag' _
        cases hag'
        simp [assign_task, hag, hany]
    · refine ⟨?_, ?_, ?_⟩
      · simp [assign_task, hag, hany]
      · simp [assign_task, hag, hany]
      · intro ag' hag' h
        exact absurd h hany

/-- C3 witness: the amended success condition discharged on a concrete
pending task. -/
theorem assign_task_requires_only_pending_witness :
    (assign_task reassignState 5 "task_t" "agent_one").1 = true :=
  ((assign_task_requires_only_pending reassignState 5 "task_t" "agent_one").1).mpr
    (by exact ⟨rfl, rfl⟩)

/-- C4: create_session always yields a PLANNING session, and start_session
is a compare-and-swap PLANNING → ACTIVE that records `started_at`; any
session in another state (or an unknown identifier) leaves the state
untouched and reports failure. -/
theorem session_initial_planning_and_start_cas
    (st : Coord) (now : Nat) (ident : String) :
    (∀ now0 i n d p pj md,
      (create_session st now0 i n d p pj md).1.status = SessionStatus.planning) ∧
    ((start_session st now ident).1 = true ↔
      st.sessions.any (sessionStartPred ident) = true) ∧
    ((start_session st now ident).1 = true →
      (start_session st now ident).2.sessions = st.sessions.map (fun s =>
        if sessionStartPred ident s then sessionStartRowUpdate now s else s)) ∧
    ((start_session st now ident).1 = false →
      (start_session st now ident).2 = st) := by
  refine ⟨fun _ _ _ _ _ _ _ => rfl, ?_, ?_, ?_⟩ <;>
    by_cases h : st.sessions.any (sessionStartPred ident) = true <;>
      simp [start_session, h]

/-- C4 witness: a freshly created session starts, moving to ACTIVE. -/
theorem session_initial_planning_and_start_cas_witness :
    (start_session sessionOnly 5 "sess_s").1 = true :=
  ((session_initial_planning_and_start_cas sessionOnly 5 "sess_s").2.1).mpr
    (by decide)

/-- C10: a session that exists but owns no tasks yields a progress record
with zero totals and a zero completion percentage — the division is behind
the `total_tasks > 0` guard, so the empty case cannot fail. -/
theorem progress_guarded_for_empty_session
    (st : Coord) (now : Nat) (ident : String) (sess : SessionRec)
    (h1 : get_session st ident = some sess)
    (h2 : session_tasks st sess = []) :
    ∃ p, (get_session_progress st now ident).1 = some p ∧
      p.total_tasks = 0 ∧ p.completion_percentage = 0 := by
  unfold get_session_progress
  rw [h1]
  exact ⟨_, rfl, by simp [h2], by simp [h2]⟩

/-- C10 witness: the concrete one-session, zero-task state. -/
theorem progress_guarded_for_empty_session_witness :
    ∃ p, (get_session_progress sessionOnly 9 "sess_s").1 = some p ∧
      p.total_tasks = 0 ∧ p.completion_percentage = 0 :=
  progress_guarded_for_empty_session sessionOnly 9 "sess_s" baseSession rfl rfl

/-- C8: a successful acquire followed by release with the token of that
acquire succeeds and clears the key, while a release whose token does not
match the stored value fails and returns the store unchanged. -/
theorem lock_roundtrip_and_stale_release
    (s : LockStore) (k token stale : String) :
    ((lockAcquire s k token).1 = true →
      (lockRelease (lockAcquire s k token).2 k token).1 = true ∧
      lockGet (lockRelease (lockAcquire s k token).2 k token).2 k = none) ∧
    (lockGet s k ≠ some stale → lockRelease s k stale = (false, s)) := by
  constructor
  · intro h
    have hs : lockGet s k = none := by
      by_contra hne
      simp [lockAcquire, hne] at h
    have hstore : (lockAcquire s k token).2 = (k, token) :: s := by
      simp [lockAcquire, hs]
    have hget : lockGet ((k, token) :: s) k = some token := by
      simp [lockGet, List.find?_cons]
    rw [hstore]
    constructor
    · simp [lockRelease, hget]
    · simp [lockRelease, hget, lockGet, assoc_find_erased]
  · intro h
    simp [lockRelease, h]

/-- C8 witness: the round trip and a foreign-token rejection on concrete
stores. -/
theorem lock_roundtrip_and_stale_release_witness :
    ((lockRelease (lockAcquire [] "lock_assign" "tok_a").2
        "lock_assign" "tok_a").1 = true) ∧
    lockRelease [("lock_assign", "tok_a")] "lock_assign" "tok_b"
      = (false, [("lock_assign", "tok_a")]) :=
  ⟨((lock_roundtrip_and_stale_release [] "lock_assign" "tok_a" "x").1
      (by decide)).1,
    (lock_roundtrip_and_stale_release [("lock_assign", "tok_a")]
      "lock_assign" "x" "tok_b").2 (by decide)⟩

/-- The ordering relation used by the ready queue is reflexive. -/
theorem taskOrder_refl (t : TaskRec) : taskOrder t t :=
  Or.inr ⟨rfl, Nat.le_refl _⟩

/-- C6: list_tasks results are sorted by priority descending (over the
ordinal low < medium < high < urgent < critical encoded by `priorityOrd`)
with creation time ascending inside a priority band; the sort is a
permutation of the filtered rows, and get_next_task_for_agent returns a
candidate that is minimal in that order among all candidates. -/
theorem ready_order_priority_desc_then_fifo
    (st : Coord) (sid : Option Nat) (stat : Option TaskStatus)
    (prio : Option TaskPriority) (aid : Option Nat) (uo : Bool) (ai : String) :
    List.Sorted taskOrder (list_tasks st sid stat prio aid uo) ∧
    (∀ ts : List TaskRec, List.Perm (orderTasks ts) ts) ∧
    (∀ t, get_next_task_for_agent st ai = some t →
      t ∈ st.tasks ∧ nextCandidate t = true ∧
        ∀ u ∈ st.tasks, nextCandidate u = true → taskOrder t u) := by
  refine ⟨?_, ?_, ?_⟩
  · unfold list_tasks orderTasks
    exact List.sorted_insertionSort taskOrder _
  · intro ts
    exact List.perm_insertionSort taskOrder ts
  · intro t ht
    unfold get_next_task_for_agent at ht
    cases hag : find_agent st ai with
    | none => rw [hag] at ht; cases ht
    | some ag =>
      rw [hag] at ht
      have hperm : List.Perm (orderTasks (st.tasks.filter nextCandidate))
          (st.tasks.filter nextCandidate) :=
        List.perm_insertionSort _ _
      have hsorted : List.Sorted taskOrder
          (orderTasks (st.tasks.filter nextCandidate)) :=
        List.sorted_insertionSort _ _
      cases hcons : orderTasks (st.tasks.filter nextCandidate) with
      | nil => rw [hcons] at ht; cases ht
      | cons hd tl =>
        rw [hcons] at ht
        injection ht with hhd
        rw [hcons, hhd] at hperm hsorted
        have hmemf : t ∈ st.tasks.filter nextCandidate :=
          hperm.mem_iff.mp (List.mem_cons_self _ _)
        have hmem := List.mem_filter.mp hmemf
        refine ⟨hmem.1, hmem.2, ?_⟩
        intro u hu hcand
        have humem : u ∈ t :: tl :=
          hperm.mem_iff.mpr (List.mem_filter.mpr ⟨hu, hcand⟩)
        rcases List.mem_cons.mp humem with he | htl
        · exact he ▸ taskOrder_refl t
        · exact (List.sorted_cons.mp hsorted).1 u htl

/-- C6 witness: among a late low-priority task, a late critical task and an
early critical task, the early critical task is returned and precedes the
late critical one. -/
theorem ready_order_priority_desc_then_fifo_witness :
    taskCritEarly ∈ orderingState.tasks ∧ taskOrder taskCritEarly taskCritLate :=
  have h := (ready_order_priority_desc_then_fifo orderingState none none none
    none false "agent_one").2.2 taskCritEarly (by decide)
  ⟨h.1, h.2.2 taskCritLate (by decide) (by decide)⟩

/-- C7 counterexample: a task in the terminal CANCELLED state is not left
unchanged — fail_task reports success and moves it to FAILED, because the
update guard only protects COMPLETED. -/
theorem fail_task_accepts_cancelled :
    (find_task cancelledState "task_t").map (fun t => t.status)
      = some TaskStatus.cancelled ∧
    (fail_task cancelledState 5 "task_t" "boom").1 = true ∧
    (find_task (fail_task cancelledState 5 "task_t" "boom").2 "task_t").map
      (fun t => (t.status, t.error_message))
      = some (TaskStatus.failed, some "boom") := by
  refine ⟨rfl, rfl, rfl⟩

/-- C7 amended: for an existing task whose agent reference resolves,
fail_task succeeds exactly when a row matches `status != COMPLETED` — so
COMPLETED is protected but CANCELLED is not; on success the matching rows
become FAILED with the error recorded and the assigned agent's failure
metrics are updated; on failure the state is unchanged. -/
theorem fail_task_blocks_only_completed
    (st : Coord) (now : Nat) (ident err : String) (task : TaskRec)
    (h1 : get_task st ident = some task)
    (h2 : truthyNat? task.assigned_agent_id = true →
      (st.agents.find? (fun a => a.id == task.assigned_agent_id.getD 0)).isSome
        = true) :
    ((fail_task st now ident err).1 = true ↔
      st.tasks.any (failPred ident) = true) ∧
    ((fail_task st now ident err).1 = true →
      (fail_task st now ident err).2.tasks = st.tasks.map (fun t =>
        if failPred ident t then failRowUpdate now err t else t)) ∧
    ((fail_task st now ident err).1 = false →
      (fail_task st now ident err).2 = st) ∧
    (truthyNat? task.assigned_agent_id = false →
      (fail_task st now ident err).2.agents = st.agents) ∧
    (∀ ag, st.agents.find? (fun a => a.id == task.assigned_agent_id.getD 0)
        = some ag →
      st.tasks.any (failPred ident) = true →
      truthyNat? task.assigned_agent_id = true →
      (fail_task st now ident err).2.agents = st.agents.map (fun a =>
        if a.id == ag.id then failAgentUpdate a err else a)) := by
  by_cases hany : st.tasks.any (failPred ident) = true
  · by_cases htr : truthyNat? task.assigned_agent_id = true
    · obtain ⟨ag, hfind⟩ := Option.isSome_iff_exists.mp (h2 htr)
      refine ⟨?_, ?_, ?_, ?_, ?_⟩
      · simp [fail_task, h1, hany, htr, hfind]
      · simp [fail_task, h1, hany, htr, hfind]
      · simp [fail_task, h1, hany, htr, hfind]
      · intro hf
        rw [htr] at hf
        cases hf
      · intro ag' hfind' _ _
        rw [hfind] at hfind'
        cases hfind'
        simp [fail_task, h1, hany, htr, hfind]
    · refine ⟨?_, ?_, ?_, ?_, ?_⟩
      · simp [fail_task, h1, hany, htr]
      · simp [fail_task, h1, hany, htr]
      · simp [fail_task, h1, hany, htr]
      · intro _
        simp [fail_task, h1, hany, htr]
      · intro ag' _ _ htr'
        exact absurd htr' htr
  · refine ⟨?_, ?_, ?_, ?_, ?_⟩
    · simp [fail_task, h1, hany]
    · simp [fail_task, h1, hany]
    · simp [fail_task, h1, hany]
    · intro _
      simp [fail_task, h1, hany]
    · intro ag' _ hany' _
      exact absurd hany' hany

/-- C7 witness: the amended success condition discharged on the concrete
cancelled, unassigned task. -/
theorem fail_task_blocks_only_completed_witness :
    (fail_task cancelledState 5 "task_t" "oops").1 = true :=
  ((fail_task_blocks_only_completed cancelledState 5 "task_t" "oops"
      { baseTask with status := TaskStatus.cancelled } rfl (by decide)).1).mpr
    (by decide)

/-- A map that does not disturb the search predicate commutes with find?. -/
theorem find?_map_pred_stable {α : Type} (l : List α) (f : α → α) (p : α → Bool)
    (h : ∀ a, p (f a) = p a) :
    (l.map f).find? p = (l.find? p).map f := by
  induction l with
  | nil => rfl
  | cons hd tl ih =>
    cases hp : p hd with
    | true =>
      rw [List.map_cons, List.find?_cons_of_pos _ (by rw [h, hp]),
        List.find?_cons_of_pos _ hp]
      rfl
    | false =>
      rw [List.map_cons, List.find?_cons_of_neg _ (by simp [h, hp]),
        List.find?_cons_of_neg _ (by simp [hp]), ih]

/-- The agent-metric branch of complete_task keeps every agent id. -/
theorem completeAgentUpdate_keeps_id (agid : Nat) (d : Option Int)
    (a : AgentRec) :
    (if a.id == agid then completeAgentUpdate a d else a).id = a.id := by
  unfold completeAgentUpdate
  split <;> rfl

/-- A row that went through the complete-task update no longer matches the
IN_PROGRESS guard. -/
theorem completePred_completeRow_false (i : String) (n : Nat) (d : Option Int)
    (o : Option (List (String × String))) (t : TaskRec) :
    completePred i (if completePred i t then completeRowUpdate n d o t else t)
      = false := by
  cases hc : completePred i t with
  | false => simp [hc]
  | true => simp [hc, completePred, completeRowUpdate]

/-- The dependency resolver can only move rows toward PENDING, so it never
creates an IN_PROGRESS match. -/
theorem completePred_unblockRow (i i' : String) (t : TaskRec) :
    completePred i (unblockRow i' t) = true → completePred i t = true := by
  unfold unblockRow
  by_cases h1 : (t.status == TaskStatus.blocked &&
      t.dependencies.contains i') = true
  · rw [if_pos h1]
    dsimp only
    by_cases h2 : (t.dependencies.erase i').isEmpty = true
    · rw [if_pos h2]
      intro h
      simp [completePred] at h
    · rw [if_neg h2]
      exact id
  · rw [if_neg h1]
    exact id

/-- After a complete-task row update followed by the dependency fan-out, no
row matches the IN_PROGRESS guard any more. -/
theorem complete_then_any_false (ts : List TaskRec) (ident : String) (now : Nat)
    (d : Option Int) (o : Option (List (String × String))) :
    (((ts.map (fun t =>
        if completePred ident t then completeRowUpdate now d o t else t)).map
          (unblockRow ident)).any (completePred ident)) = false := by
  rw [List.any_eq_false]
  intro x hx
  rw [List.mem_map] at hx
  obtain ⟨y, hy, hxy⟩ := hx
  rw [List.mem_map] at hy
  obtain ⟨t, _, hyt⟩ := hy
  subst hxy
  subst hyt
  intro hcontra
  have h1 := completePred_unblockRow ident ident _ hcontra
  rw [completePred_completeRow_false] at h1
  cases h1

/-- C5 counterexample: completing the concrete in-progress task stores a
success_rate of 100 (a percentage), not the claimed bare ratio
`completed/(completed+failed)`, which here would be 1. -/
theorem complete_task_success_rate_is_percent :
    (complete_task inProgressState 120 "task_t" none).2.agents.find?
        (fun b => b.id == 1) = some (completeAgentUpdate agentOne (some 2)) ∧
    (completeAgentUpdate agentOne (some 2)).success_rate = some 100 ∧
    (100 : ℚ) ≠ (1 : ℚ) / ((1 : ℚ) + (0 : ℚ)) := by
  refine ⟨rfl, ?_, by norm_num⟩
  simp [completeAgentUpdate, agentOne]

/-- Without a row matching the IN_PROGRESS guard, complete_task reports
failure and returns the state unchanged. -/
theorem complete_task_fails_when_no_match (st : Coord) (now : Nat)
    (ident : String) (out : Option (List (String × String)))
    (h : st.tasks.any (completePred ident) = false) :
    complete_task st now ident out = (false, st) := by
  unfold complete_task
  cases hg : get_task st ident with
  | none => rfl
  | some t => simp [h]

/-- C5 amended: completing an in-progress task once succeeds and sets the
assigned agent's success_rate to `completed/(completed+failed)` expressed as
a percentage (multiplied by 100), incrementing only `tasks_completed`; a
second complete_task call on the now-COMPLETED task returns failure and
leaves the whole state — hence every agent metric — unchanged. -/
theorem complete_task_once_updates_metrics_twice_fails
    (st : Coord) (now now2 : Nat) (ident : String)
    (out out2 : Option (List (String × String)))
    (task : TaskRec) (aid : Nat) (agent : AgentRec)
    (h1 : get_task st ident = some task)
    (h2 : task.status = TaskStatus.in_progress)
    (h3 : task.assigned_agent_id = some aid)
    (h4 : aid ≠ 0)
    (h5 : st.agents.find? (fun a => a.id == aid) = some agent) :
    (complete_task st now ident out).1 = true ∧
    (∃ a', (complete_task st now ident out).2.agents.find?
        (fun b => b.id == aid) = some a' ∧
      a'.tasks_completed = agent.tasks_completed + 1 ∧
      a'.tasks_failed = agent.tasks_failed ∧
      a'.success_rate = some
        ((((agent.tasks_completed + 1 : Nat) : ℚ)
            / ((agent.tasks_completed + 1 + agent.tasks_failed : Nat) : ℚ))
          * 100)) ∧
    complete_task (complete_task st now ident out).2 now2 ident out2
      = (false, (complete_task st now ident out).2) := by
  have hfindt : st.tasks.find? (fun t => t.identifier == ident) = some task := h1
  have hmem : task ∈ st.tasks := List.mem_of_find?_eq_some hfindt
  have hpredt := List.find?_some hfindt
  have hany : st.tasks.any (completePred ident) = true :=
    List.any_eq_true.mpr ⟨task, hmem, by simp [completePred, hpredt, h2]⟩
  have htr : truthyNat? task.assigned_agent_id = true := by
    rw [h3]
    simp [truthyNat?, h4]
  have hfind2 : st.agents.find?
      (fun a => a.id == task.assigned_agent_id.getD 0) = some agent := by
    rw [h3]
    exact h5
  have hagid : agent.id = aid := by
    have := List.find?_some h5
    simpa using this
  have hshape : complete_task st now ident out = (true,
      check_and_unblock_dependencies
        { st with
          tasks := st.tasks.map (fun t =>
            if completePred ident t then
              completeRowUpdate now (durationMinutes now task) out t
            else t)
          agents := st.agents.map (fun a =>
            if a.id == agent.id then
              completeAgentUpdate a (durationMinutes now task)
            else a)
          cache := cacheDelete st.cache ("task:" ++ ident) } ident) := by
    unfold complete_task
    rw [h1]
    simp only [hany, htr, hfind2, if_true]
  refine ⟨by rw [hshape], ?_, ?_⟩
  · -- agent metrics after the first call
    have hagents : (complete_task st now ident out).2.agents
        = st.agents.map (fun a =>
            if a.id == agent.id then
              completeAgentUpdate a (durationMinutes now task)
            else a) := by
      rw [hshape]
      rfl
    rw [hagents]
    have hstable : ∀ a : AgentRec,
        ((if a.id == agent.id then
            completeAgentUpdate a (durationMinutes now task)
          else a).id == aid)
          = (a.id == aid) := by
      intro a
      rw [completeAgentUpdate_keeps_id]
    rw [find?_map_pred_stable _ _ _ hstable, h5]
    refine ⟨completeAgentUpdate agent (durationMinutes now task), ?_, rfl, rfl, rfl⟩
    simp [hagid]
  · -- second call fails and changes nothing
    have htasks : (complete_task st now ident out).2.tasks
        = (st.tasks.map (fun t =>
            if completePred ident t then
              completeRowUpdate now (durationMinutes now task) out t
            else t)).map (unblockRow ident) := by
      rw [hshape]
      rfl
    have hany2 : (complete_task st now ident out).2.tasks.any
        (completePred ident) = false := by
      rw [htasks]
      exact complete_then_any_false _ _ _ _ _
    exact complete_task_fails_when_no_match _ now2 ident out2 hany2

/-- C5 witness: the amended property discharged on the concrete in-progress
task of agent 1. -/
theorem complete_task_once_updates_metrics_twice_fails_witness :
    (complete_task inProgressState 120 "task_t" none).1 = true ∧
    complete_task (complete_task inProgressState 120 "task_t" none).2 240
        "task_t" none
      = (false, (complete_task inProgressState 120 "task_t" none).2) :=
  have h := complete_task_once_updates_metrics_twice_fails inProgressState 120 240
    "task_t" none none
    { baseTask with
      status := TaskStatus.in_progress
      assigned_agent_id := some 1
      started_at := some 0 }
    1 agentOne rfl rfl rfl (by decide) rfl
  ⟨h.1, h.2.2⟩


/-- A successful assign_task leaves no cache entry for the task key. -/
theorem assign_task_cache_cleared (st : Coord) (now : Nat) (t a : String) :
    (assign_task st now t a).1 = true →
    cacheGet (assign_task st now t a).2.cache ("task:" ++ t) = none := by
  unfold assign_task
  cases hag : find_agent st a with
  | none => intro h; simp at h
  | some ag =>
    cases hany : st.tasks.any (assignPred t) with
    | false => intro h; simp [hany] at h
    | true =>
      intro _
      simp only [hany, if_true]
      exact cacheGet_cacheDelete _ _

/-- A successful start_task leaves no cache entry for the task key. -/
theorem start_task_cache_cleared (st : Coord) (now : Nat) (i : String) :
    (start_task st now i).1 = true →
    cacheGet (start_task st now i).2.cache ("task:" ++ i) = none := by
  unfold start_task
  cases hany : st.tasks.any (startPred i) with
  | false => intro h; simp [hany] at h
  | true =>
    intro _
    simp only [hany, if_true]
    exact cacheGet_cacheDelete _ _

/-- A successful complete_task leaves no cache entry for the task key. -/
theorem complete_task_cache_cleared (st : Coord) (now : Nat) (i : String)
    (out : Option (List (String × String))) :
    (complete_task st now i out).1 = true →
    cacheGet (complete_task st now i out).2.cache ("task:" ++ i) = none := by
  unfold complete_task
  cases hg : get_task st i with
  | none => intro h; simp at h
  | some task =>
    cases hany : st.tasks.any (completePred i) with
    | false => intro h; simp [hany] at h
    | true =>
      cases htr : truthyNat? task.assigned_agent_id with
      | false =>
        intro _
        simp only [hany, if_true, htr, Bool.false_eq_true, if_false]
        simpa [check_and_unblock_cache] using
          cacheGet_cacheDelete st.cache ("task:" ++ i)
      | true =>
        cases hf : st.agents.find?
            (fun b => b.id == task.assigned_agent_id.getD 0) with
        | none =>
          intro h
          simp [hany, htr, hf] at h
        | some ag =>
          intro _
          simp only [hany, if_true, htr, hf]
          simpa [check_and_unblock_cache] using
            cacheGet_cacheDelete st.cache ("task:" ++ i)

/-- A successful fail_task leaves no cache entry for the task key. -/
theorem fail_task_cache_cleared (st : Coord) (now : Nat) (i e : String) :
    (fail_task st now i e).1 = true →
    cacheGet (fail_task st now i e).2.cache ("task:" ++ i) = none := by
  unfold fail_task
  cases hg : get_task st i with
  | none => intro h; simp at h
  | some task =>
    cases hany : st.tasks.any (failPred i) with
    | false => intro h; simp [hany] at h
    | true =>
      cases htr : truthyNat? task.assigned_agent_id with
      | false =>
        intro _
        simp only [hany, if_true, htr, Bool.false_eq_true, if_false]
        exact cacheGet_cacheDelete _ _
      | true =>
        cases hf : st.agents.find?
            (fun b => b.id == task.assigned_agent_id.getD 0) with
        | none =>
          intro h
          simp [hany, htr, hf] at h
        | some ag =>
          intro _
          simp only [hany, if_true, htr, hf]
          exact cacheGet_cacheDelete _ _

/-- A successful retry_task leaves no cache entry for the task key. -/
theorem retry_task_cache_cleared (st : Coord) (now : Nat) (i : String) :
    (retry_task st now i).1 = true →
    cacheGet (retry_task st now i).2.cache ("task:" ++ i) = none := by
  unfold retry_task
  cases hg : get_task st i with
  | none => intro h; simp at h
  | some task =>
    cases hst : (task.status == TaskStatus.failed) with
    | false => intro h; simp [hst] at h
    | true =>
      cases hany : st.tasks.any (fun t => t.identifier == i) with
      | false => intro h; simp [hst, hany] at h
      | true =>
        intro _
        simp only [hst, hany, Bool.not_true, Bool.false_eq_true, if_false, if_true]
        exact cacheGet_cacheDelete _ _

/-- A successful start_session leaves no cache entry for the session key. -/
theorem start_session_cache_cleared (st : Coord) (now : Nat) (i : String) :
    (start_session st now i).1 = true →
    cacheGet (start_session st now i).2.cache ("session:" ++ i) = none := by
  unfold start_session
  cases hany : st.sessions.any (sessionStartPred i) with
  | false => intro h; simp [hany] at h
  | true =>
    intro _
    simp only [hany, if_true]
    exact cacheGet_cacheDelete _ _

/-- A successful pause_session leaves no cache entry for the session key. -/
theorem pause_session_cache_cleared (st : Coord) (now : Nat) (i : String)
    (reason : Option String) :
    (pause_session st now i reason).1 = true →
    cacheGet (pause_session st now i reason).2.cache ("session:" ++ i) = none := by
  unfold pause_session
  cases hany : st.sessions.any (fun s =>
      s.identifier == i && s.status == SessionStatus.active) with
  | false => intro h; simp [hany] at h
  | true =>
    intro _
    simp only [hany, if_true]
    exact cacheGet_cacheDelete _ _

/-- A successful complete_session leaves no cache entry for the session
key. -/
theorem complete_session_cache_cleared (st : Coord) (now : Nat) (i : String)
    (summary : Option String) :
    (complete_session st now i summary).1 = true →
    cacheGet (complete_session st now i summary).2.cache ("session:" ++ i)
      = none := by
  unfold complete_session
  cases hg : get_session st i with
  | none => intro h; simp at h
  | some sess =>
    cases hany : st.sessions.any (fun s => s.identifier == i &&
        (s.status == SessionStatus.active || s.status == SessionStatus.paused)) with
    | false => intro h; simp [hany] at h
    | true =>
      intro _
      simp only [hany, if_true]
      exact cacheGet_cacheDelete _ _

/-- A successful fail_session leaves no cache entry for the session key. -/
theorem fail_session_cache_cleared (st : Coord) (now : Nat) (i e : String) :
    (fail_session st now i e).1 = true →
    cacheGet (fail_session st now i e).2.cache ("session:" ++ i) = none := by
  unfold fail_session
  cases hany : st.sessions.any (fun s =>
      s.identifier == i && !(s.status == SessionStatus.completed)) with
  | false => intro h; simp [hany] at h
  | true =>
    intro _
    simp only [hany, if_true]
    exact cacheGet_cacheDelete _ _

/-- A successful archive_session leaves no cache entry for the session key
(the progress key is deleted second, which cannot resurrect it). -/
theorem archive_session_cache_cleared (st : Coord) (now : Nat) (i : String) :
    (archive_session st now i).1 = true →
    cacheGet (archive_session st now i).2.cache ("session:" ++ i) = none := by
  unfold archive_session
  cases hany : st.sessions.any (fun s => s.identifier == i &&
      (s.status == SessionStatus.completed || s.status == SessionStatus.failed)) with
  | false => intro h; simp [hany] at h
  | true =>
    intro _
    simp only [hany, if_true]
    exact cacheGet_cacheDelete_of_none _ _ _ (cacheGet_cacheDelete _ _)

/-- C9: after any successful state transition (task assign, start,
complete, fail, retry; session start, pause, complete, fail, archive) the
cache entry for the record's key has been deleted, and the read paths
return the durable-store row regardless of what the cache holds, so a
subsequent read can never see the pre-transition value. -/
theorem transition_invalidates_cache_and_reads_store
    (st : Coord) (now : Nat) (op : CoordOp) :
    ((runOp st now op).1 = true →
      cacheGet (runOp st now op).2.cache (opKey op) = none) ∧
    (∀ c i, get_task { (runOp st now op).2 with cache := c } i
        = find_task (runOp st now op).2 i) ∧
    (∀ c i, get_session { (runOp st now op).2 with cache := c } i
        = find_session (runOp st now op).2 i) := by
  refine ⟨?_, fun c i => rfl, fun c i => rfl⟩
  cases op with
  | assign t a => exact assign_task_cache_cleared st now t a
  | start i => exact start_task_cache_cleared st now i
  | complete i o => exact complete_task_cache_cleared st now i o
  | fail i e => exact fail_task_cache_cleared st now i e
  | retry i => exact retry_task_cache_cleared st now i
  | sessionStart i => exact start_session_cache_cleared st now i
  | sessionPause i r => exact pause_session_cache_cleared st now i r
  | sessionComplete i s => exact complete_session_cache_cleared st now i s
  | sessionFail i e => exact fail_session_cache_cleared st now i e
  | sessionArchive i => exact archive_session_cache_cleared st now i

/-- C9 witness: starting the concrete planning session succeeds and its
cache key is gone afterwards. -/
theorem transition_invalidates_cache_and_reads_store_witness :
    cacheGet (runOp sessionOnly 5 (CoordOp.sessionStart "sess_s")).2.cache
      (opKey (CoordOp.sessionStart "sess_s")) = none :=
  (transition_invalidates_cache_and_reads_store sessionOnly 5
    (CoordOp.sessionStart "sess_s")).1 (by decide)
